import Mathlib

/-!
Shallow embedding of the knowit normalization engine pieces needed here:
* `knowit/properties/basic.py` — `Basic.handle`
* `knowit/properties/audio/channels.py` — `AudioChannels.handle`
* `knowit/providers/mediainfo.py` — `MediaInfoProvider.accepts`,
  `MediaInfoProvider.describe`, `MediaInfoProvider.version`

Python values that can appear as raw field values are modelled by `PyValue`
(ints, floats, bools, strings).  Python floats are represented by exact
rationals: none of the properties below depends on floating-point rounding,
only on whether a coercion succeeds or fails.  Python exceptions are modelled
by `Except PyErr`; a `try/except ValueError` in the source becomes an explicit
match on the `Except` value that re-raises every error other than
`.valueError`.
-/

set_option autoImplicit false

namespace Knowit

instance {ε α : Type} [DecidableEq ε] [DecidableEq α] : DecidableEq (Except ε α) := fun a b =>
  match a, b with
  | .error e, .error f =>
    if h : e = f then isTrue (congrArg Except.error h) else isFalse (fun hh => h (by injection hh))
  | .ok x, .ok y =>
    if h : x = y then isTrue (congrArg Except.ok h) else isFalse (fun hh => h (by injection hh))
  | .error _, .ok _ => isFalse (fun hh => by injection hh)
  | .ok _, .error _ => isFalse (fun hh => by injection hh)

/-- A Python exception class that can be raised by the modelled code. -/
inductive PyErr where
  | valueError
  | attributeError
  | typeError
deriving DecidableEq, Repr

/-- A raw Python value as found in a probe-output field. -/
inductive PyValue where
  | int (n : Int)
  | float (q : Rat)
  | bool (b : Bool)
  | str (s : String)
deriving DecidableEq, Repr

/-- The `data_type` argument of `Basic.__init__`: one of Python's basic types. -/
inductive DataType where
  | int
  | float
  | bool
  | str
deriving DecidableEq, Repr

/-- Python `isinstance(value, data_type)`.  Note that in Python `bool` is a
subclass of `int`, so a `bool` value is an instance of `int`. -/
def isinstance : PyValue → DataType → Bool
  | .int _, .int => true
  | .bool _, .int => true
  | .bool _, .bool => true
  | .float _, .float => true
  | .str _, .str => true
  | _, _ => false

/-- Value of a list of decimal digit characters; `none` if any character is
not a digit.  The empty list yields `some 0` (callers decide emptiness). -/
def digitsVal (cs : List Char) : Option Nat :=
  cs.foldl
    (fun acc c => acc.bind fun n =>
      if c.isDigit then some (n * 10 + (c.toNat - 48)) else none)
    (some 0)

/-- Strip leading and trailing whitespace from a character list (Python's
`int`/`float` constructors ignore surrounding whitespace). -/
def stripWS (cs : List Char) : List Char :=
  ((cs.dropWhile Char.isWhitespace).reverse.dropWhile Char.isWhitespace).reverse

/-- Python `int(s)` on a string: optional surrounding whitespace, optional
sign, then decimal digits; anything else raises `ValueError` (`none` here).
(Python additionally allows underscores between digits; not modelled, no
claim depends on it.) -/
def pyIntOfString (s : String) : Option Int :=
  match stripWS s.data with
  | [] => none
  | '+' :: cs => if cs.isEmpty then none else (digitsVal cs).map Int.ofNat
  | '-' :: cs => if cs.isEmpty then none else (digitsVal cs).map (fun n => -(n : Int))
  | cs => (digitsVal cs).map Int.ofNat

/-- Python `float(s)` on a string, simplified to plain decimal literals:
optional sign, digits with an optional fractional part ("1", "1.", ".5").
Exponents, "inf" and "nan" are not modelled; the result is the exact
rational, since no claim depends on IEEE rounding. -/
def pyFloatOfString (s : String) : Option Rat :=
  let signAndBody : Rat × List Char :=
    match stripWS s.data with
    | '+' :: cs => (1, cs)
    | '-' :: cs => (-1, cs)
    | cs => (1, cs)
  let sgn := signAndBody.1
  let cs := signAndBody.2
  let intPart := cs.takeWhile Char.isDigit
  let rest := cs.dropWhile Char.isDigit
  match rest with
  | [] =>
    if intPart.isEmpty then none
    else (digitsVal intPart).map (fun n => sgn * (n : Rat))
  | '.' :: frac =>
    if intPart.isEmpty && frac.isEmpty then none
    else
      match digitsVal intPart, digitsVal frac with
      | some i, some f =>
        some (sgn * ((i : Rat) + (f : Rat) / ((10 : Rat) ^ frac.length)))
      | _, _ => none
  | _ => none

/-- Truncation toward zero, as Python `int(float)` does. -/
def ratTruncToInt (q : Rat) : Int :=
  let m := q.num.natAbs / q.den
  if 0 ≤ q.num then (m : Int) else -(m : Int)

/-- Python truthiness of a value. -/
def pyTruthy : PyValue → Bool
  | .int n => n != 0
  | .float q => q != 0
  | .bool b => b
  | .str s => s != ""

/-- Python `str(value)` (float repr simplified; no claim depends on it). -/
def pyStr : PyValue → String
  | .str s => s
  | .int n => toString n
  | .bool b => if b then "True" else "False"
  | .float q => toString q

/-- Python `data_type(value)`: calling the basic type as a constructor.
`int`/`float` of a malformed string raise `ValueError`; `bool` and `str`
accept any value. -/
def pyCoerce : DataType → PyValue → Except PyErr PyValue
  | .int, .str s =>
    match pyIntOfString s with
    | some n => .ok (.int n)
    | none => .error .valueError
  | .int, .int n => .ok (.int n)
  | .int, .bool b => .ok (.int (if b then 1 else 0))
  | .int, .float q => .ok (.int (ratTruncToInt q))
  | .float, .str s =>
    match pyFloatOfString s with
    | some q => .ok (.float q)
    | none => .error .valueError
  | .float, .int n => .ok (.float (n : Rat))
  | .float, .float q => .ok (.float q)
  | .float, .bool b => .ok (.float (if b then 1 else 0))
  | .bool, v => .ok (.bool (pyTruthy v))
  | .str, v => .ok (.str (pyStr v))

/-- Python `str.lower` on one character, restricted to ASCII (the raw
tokens involved are ASCII; Unicode case mapping is not modelled). -/
def pyCharLower (c : Char) : Char :=
  if 'A' ≤ c && c ≤ 'Z' then Char.ofNat (c.toNat + 32) else c

/-- Python `s.lower()` on a string (ASCII case mapping). -/
def pyStrLower (s : String) : String :=
  ⟨s.data.map pyCharLower⟩

/-- Python `value.lower()`: only strings have the attribute; on any other
value the attribute lookup raises `AttributeError`. -/
def pyLower : PyValue → Except PyErr String
  | .str s => .ok (pyStrLower s)
  | _ => .error .attributeError

/-- The request-scoped context: what the claims need from it is the
accumulated warning list. -/
structure Context where
  warnings : List PyValue
deriving DecidableEq, Repr

/-- Modelled from the spec: `Property.report` (class `Property` of
`knowit/property.py`, not under `src/`) — "signal a reportable anomaly via
`report(value, context)`, which records a warning in `context` and yields no
output value for that field". -/
def report (value : PyValue) (ctx : Context) : Context :=
  { ctx with warnings := ctx.warnings ++ [value] }

/-- `Basic.handle` from `knowit/properties/basic.py`.  The result is the
returned optional value (Python `None` for a fall-through return) together
with the context; `.error` models an uncaught exception, since the source
catches only `ValueError`. -/
def Basic.handle (data_type : DataType) (allow_fallback : Bool)
    (value : PyValue) (ctx : Context) : Except PyErr (Option PyValue × Context) :=
  if isinstance value data_type then
    .ok (some value, ctx)
  else
    match pyCoerce data_type value with
    | .ok v => .ok (some v, ctx)
    | .error .valueError =>
      if !allow_fallback then .ok (none, report value ctx)
      else .ok (none, ctx)
    | .error e => .error e

/-- `AudioChannels.ignored` from `knowit/properties/audio/channels.py`. -/
def AudioChannels.ignored : List String := ["object based"]

/-- `AudioChannels.handle` from `knowit/properties/audio/channels.py`.
`int(v)` on the lowered string is `pyIntOfString`; only `ValueError` is
caught there. -/
def AudioChannels.handle (value : PyValue) (ctx : Context) :
    Except PyErr (Option PyValue × Context) :=
  if isinstance value .int then
    .ok (some value, ctx)
  else
    match pyLower value with
    | .error e => .error e
    | .ok v =>
      if !(AudioChannels.ignored.contains v) then
        match pyIntOfString v with
        | some n => .ok (some (.int n), ctx)
        | none => .ok (none, report value ctx)
      else
        .ok (none, ctx)

/-- A raw track, as parsed from the probe tool's JSON output: a mapping from
raw field name to raw value (Python `dict`; keys unique, `lookup` is
`dict.get`). -/
def RawTrack : Type := List (String × PyValue)

instance : DecidableEq RawTrack := fun a b => List.hasDecEq a b

instance : Repr RawTrack := inferInstanceAs (Repr (List (String × PyValue)))

/-- `track.get('@type') == t` for a string literal `t`. -/
def hasTrackType (t : String) (track : RawTrack) : Bool :=
  track.lookup "@type" == some (.str t)

/-- One iteration of the classification loop in `MediaInfoProvider.describe`
(lines 297–306): append the track to the list matching its `@type`
(`hasTrackType t track` is literally `track.get('@type') == t`), dropping
tracks of any other (or missing) type. -/
def classifyStep (acc : List RawTrack × List RawTrack × List RawTrack × List RawTrack)
    (track : RawTrack) : List RawTrack × List RawTrack × List RawTrack × List RawTrack :=
  let g := acc.1
  let v := acc.2.1
  let a := acc.2.2.1
  let s := acc.2.2.2
  if hasTrackType "General" track then (g ++ [track], v, a, s)
  else if hasTrackType "Video" track then (g, v ++ [track], a, s)
  else if hasTrackType "Audio" track then (g, v, a ++ [track], s)
  else if hasTrackType "Text" track then (g, v, a, s ++ [track])
  else (g, v, a, s)

/-- The classification loop of `MediaInfoProvider.describe`: partition the
raw track list into (general, video, audio, subtitle) lists. -/
def classify (tracks : List RawTrack) :
    List RawTrack × List RawTrack × List RawTrack × List RawTrack :=
  tracks.foldl classifyStep ([], [], [], [])

/-- The errors `describe` can surface (`MalformedFileError` from
`knowit/provider.py`). -/
inductive KnowitError where
  | malformedFileError
deriving DecidableEq, Repr

/-- An executor handle: location of the external tool and its parsed version
tuple (`MediaInfoExecutor.__init__`). -/
structure Executor where
  location : String
  version : List Nat
deriving DecidableEq, Repr

/-- The `executor` attribute of `MediaInfoProvider` over its lifetime:
Python `None` (initial / lookup failed), Python `False` (set by `accepts`
after a failed lookup), or a found executor. -/
inductive ExecutorSlot where
  | pyNone
  | pyFalse
  | found (e : Executor)
deriving DecidableEq, Repr

/-- `MediaInfoProvider.version`: `{'pymediainfo': ..., location: 'v1.2.3'}`,
the executor entry present only when the executor is truthy. -/
def MediaInfoProvider.version (slot : ExecutorSlot) (pymediainfo_version : String) :
    List (String × String) :=
  let versions := [("pymediainfo", pymediainfo_version)]
  match slot with
  | .found e =>
    versions ++ [(e.location, "v" ++ String.intercalate "." (e.version.map toString))]
  | _ => versions

/-- `MediaInfoProvider.accepts`: returns the truthiness of
`self.executor and video_path.lower().endswith(VIDEO_EXTENSIONS)` together
with the updated `executor` slot (`None` is demoted to `False`).
`VIDEO_EXTENSIONS` (defined in `knowit/__init__.py`, not under `src/`) is a
parameter. -/
def MediaInfoProvider.accepts (video_extensions : List String)
    (slot : ExecutorSlot) (video_path : String) : Bool × ExecutorSlot :=
  let slot := match slot with
    | .pyNone => .pyFalse
    | s => s
  let accepted := match slot with
    | .found _ =>
      video_extensions.any (fun ext => ext.data.isSuffixOf (pyStrLower video_path).data)
    | _ => false
  (accepted, slot)

/-- The `provider` block attached to a successful result. -/
structure ProviderInfo where
  name : String
  version : List (String × String)
deriving DecidableEq, Repr

/-- A successful `describe` result: whatever `_describe_tracks` produced,
plus the `provider` block added at the end of `describe`. -/
structure DescribeResult (α : Type) where
  body : α
  provider : ProviderInfo
deriving DecidableEq, Repr

/-- The tail of `MediaInfoProvider.describe` (lines 310–318): a falsy
`result` raises `MalformedFileError`, otherwise the `provider` block is
attached and the result returned. -/
def finishDescribe {α : Type} (e : Executor) (pymediainfo_version : String) :
    Option α → Except KnowitError (DescribeResult α)
  | none => .error .malformedFileError
  | some r =>
    .ok { body := r,
          provider := { name := "mediainfo",
                        version := MediaInfoProvider.version (.found e) pymediainfo_version } }

/-- `MediaInfoProvider.describe` (lines 290–318), starting from the parsed
track list `data.get('media', {}).get('track', [])`.  `_describe_tracks`
lives in the `Provider` base class (`knowit/provider.py`, not under `src/`)
and is a parameter here; `none` models a falsy return (empty dict or
`None`).  `result` starts as the falsy `{}` and is only assigned when the
track list is non-empty; the general track passed on is
`general_tracks[0] if general_tracks else {}`. -/
def MediaInfoProvider.describe {α : Type}
    (describe_tracks : RawTrack → List RawTrack → List RawTrack → List RawTrack → Option α)
    (e : Executor) (pymediainfo_version : String) (tracks : List RawTrack) :
    Except KnowitError (DescribeResult α) :=
  let result : Option α :=
    if tracks.isEmpty then none
    else
      let c := classify tracks
      describe_tracks (c.1.headD []) c.2.1 c.2.2.1 c.2.2.2
  finishDescribe e pymediainfo_version result

/-! ## Helper lemmas -/

/-- On a string argument, `data_type(value)` either succeeds or raises
exactly `ValueError` (which `Basic.handle` catches). -/
theorem pyCoerce_str_classify (dt : DataType) (s : String) :
    (∃ v, pyCoerce dt (.str s) = .ok v) ∨ pyCoerce dt (.str s) = .error .valueError := by
  cases dt with
  | int => cases h : pyIntOfString s <;> simp [pyCoerce, h]
  | float => cases h : pyFloatOfString s <;> simp [pyCoerce, h]
  | bool => simp [pyCoerce]
  | str => simp [pyCoerce]

/-- A track has at most one `@type`: matching one type excludes another. -/
theorem hasTrackType_unique {t₁ t₂ : String} (track : RawTrack)
    (h : hasTrackType t₁ track = true) (hne : t₁ ≠ t₂) :
    hasTrackType t₂ track = false := by
  have hl : track.lookup "@type" = some (.str t₁) := by
    simp only [hasTrackType, beq_iff_eq] at h
    exact h
  simp [hasTrackType, hl, hne]

/-- The classification loop, unrolled: starting from accumulators
`(g, v, a, s)`, it appends exactly the tracks of each declared `@type`, in
their order of appearance. -/
theorem foldl_classifyStep (ts : List RawTrack) (g v a s : List RawTrack) :
    ts.foldl classifyStep (g, v, a, s) =
      (g ++ ts.filter (hasTrackType "General"), v ++ ts.filter (hasTrackType "Video"),
       a ++ ts.filter (hasTrackType "Audio"), s ++ ts.filter (hasTrackType "Text")) := by
  induction ts generalizing g v a s with
  | nil => simp
  | cons t ts ih =>
    rw [List.foldl_cons]
    rcases h1 : hasTrackType "General" t with _ | _
    case true =>
      have e2 := hasTrackType_unique t h1 (show "General" ≠ "Video" by decide)
      have e3 := hasTrackType_unique t h1 (show "General" ≠ "Audio" by decide)
      have e4 := hasTrackType_unique t h1 (show "General" ≠ "Text" by decide)
      rw [show classifyStep (g, v, a, s) t = (g ++ [t], v, a, s) by
            simp [classifyStep, h1],
          ih, List.filter_cons, List.filter_cons, List.filter_cons, List.filter_cons]
      simp [h1, e2, e3, e4]
    case false =>
    rcases h2 : hasTrackType "Video" t with _ | _
    case true =>
      have e3 := hasTrackType_unique t h2 (show "Video" ≠ "Audio" by decide)
      have e4 := hasTrackType_unique t h2 (show "Video" ≠ "Text" by decide)
      rw [show classifyStep (g, v, a, s) t = (g, v ++ [t], a, s) by
            simp [classifyStep, h1, h2],
          ih, List.filter_cons, List.filter_cons, List.filter_cons, List.filter_cons]
      simp [h1, h2, e3, e4]
    case false =>
    rcases h3 : hasTrackType "Audio" t with _ | _
    case true =>
      have e4 := hasTrackType_unique t h3 (show "Audio" ≠ "Text" by decide)
      rw [show classifyStep (g, v, a, s) t = (g, v, a ++ [t], s) by
            simp [classifyStep, h1, h2, h3],
          ih, List.filter_cons, List.filter_cons, List.filter_cons, List.filter_cons]
      simp [h1, h2, h3, e4]
    case false =>
    rcases h4 : hasTrackType "Text" t with _ | _
    case true =>
      rw [show classifyStep (g, v, a, s) t = (g, v, a, s ++ [t]) by
            simp [classifyStep, h1, h2, h3, h4],
          ih, List.filter_cons, List.filter_cons, List.filter_cons, List.filter_cons]
      simp [h1, h2, h3, h4]
    case false =>
      rw [show classifyStep (g, v, a, s) t = (g, v, a, s) by
            simp [classifyStep, h1, h2, h3, h4],
          ih, List.filter_cons, List.filter_cons, List.filter_cons, List.filter_cons]
      simp [h1, h2, h3, h4]

/-- `classify` computes exactly the four by-type filters. -/
theorem classify_eq_filters (tracks : List RawTrack) :
    classify tracks =
      (tracks.filter (hasTrackType "General"), tracks.filter (hasTrackType "Video"),
       tracks.filter (hasTrackType "Audio"), tracks.filter (hasTrackType "Text")) := by
  rw [classify, foldl_classifyStep]; simp

/-- Filtering with a stronger predicate first does not change a filter. -/
theorem filter_filter_of_imp {α : Type} (p q : α → Bool) (h : ∀ a, p a = true → q a = true)
    (l : List α) : (l.filter q).filter p = l.filter p := by
  induction l with
  | nil => rfl
  | cons a l ih =>
    by_cases hq : q a = true
    · by_cases hp : p a = true <;> simp [List.filter_cons, hq, hp, ih]
    · have hp : p a = false := by
        rcases hcase : p a with _ | _
        · rfl
        · exact absurd (h a hcase) hq
      simp [List.filter_cons, hq, hp, ih]

/-- If `finishDescribe` succeeds, the result carries the provider block. -/
theorem finishDescribe_provider {α : Type} (e : Executor) (pv : String) (o : Option α)
    (r : DescribeResult α) (h : finishDescribe e pv o = .ok r) :
    r.provider = { name := "mediainfo", version := MediaInfoProvider.version (.found e) pv } := by
  cases o with
  | none => exact absurd h (by simp [finishDescribe])
  | some b =>
    simp only [finishDescribe, Except.ok.injEq] at h
    rw [← h]

/-! ## Claims -/

/-- C1: a raw probe output with zero tracks of any type makes
`MediaInfoProvider.describe` raise `MalformedFileError` instead of returning
a result (for any `_describe_tracks`, executor and tool version). -/
theorem describe_empty_tracks_malformed {α : Type}
    (describe_tracks : RawTrack → List RawTrack → List RawTrack → List RawTrack → Option α)
    (e : Executor) (pymediainfo_version : String) :
    MediaInfoProvider.describe describe_tracks e pymediainfo_version [] =
      .error .malformedFileError := rfl

/-- C2: for any context, `AudioChannels.handle "6"` returns the integer 6;
`handle "object based"` returns no value and records no warning (context
unchanged); `handle "six"` returns no value and records exactly one
warning. -/
theorem audioChannels_handle_examples (ctx : Context) :
    AudioChannels.handle (.str "6") ctx = .ok (some (.int 6), ctx)
    ∧ AudioChannels.handle (.str "object based") ctx = .ok (none, ctx)
    ∧ AudioChannels.handle (.str "six") ctx = .ok (none, report (.str "six") ctx)
    ∧ (report (.str "six") ctx).warnings.length = ctx.warnings.length + 1 := by
  refine ⟨rfl, rfl, rfl, ?_⟩
  simp [report]

/-- C3 counterexample: with `allow_fallback = true`, `Basic.handle` on the
uncoercible string "abc" (declared type `int`) yields no value — it does
NOT return the raw string "abc" as the claim states. -/
theorem basic_fallback_counterexample :
    Basic.handle .int true (.str "abc") { warnings := [] } =
      .ok (none, { warnings := [] })
    ∧ ¬ (Basic.handle .int true (.str "abc") { warnings := [] } =
      .ok (some (.str "abc"), { warnings := [] })) := by
  constructor
  · rfl
  · intro h
    rw [show Basic.handle .int true (.str "abc") { warnings := [] } =
        .ok (none, { warnings := [] }) from rfl] at h
    simp at h

/-- C3 (amended): for every string value whose coercion to the declared data
type fails with `ValueError`: with `allow_fallback = false` the value is
reported (exactly one warning recorded, no value returned); with
`allow_fallback = true` the handler silently returns no value — the field
is omitted — without recording a warning. -/
theorem basic_handle_coercion_failure (dt : DataType) (s : String) (ctx : Context)
    (h : pyCoerce dt (.str s) = .error .valueError) :
    Basic.handle dt false (.str s) ctx = .ok (none, report (.str s) ctx)
    ∧ (report (.str s) ctx).warnings.length = ctx.warnings.length + 1
    ∧ Basic.handle dt true (.str s) ctx = .ok (none, ctx) := by
  have hi : isinstance (.str s) dt = false := by
    cases dt
    · rfl
    · rfl
    · rfl
    · exfalso; simp [pyCoerce] at h
  refine ⟨?_, ?_, ?_⟩ <;> simp [Basic.handle, hi, h, report]

/-- C3 witness: the amended behavior at `int`, "abc". -/
theorem basic_handle_coercion_failure_witness :
    pyCoerce .int (.str "abc") = .error .valueError
    ∧ (Basic.handle .int false (.str "abc") { warnings := [] } =
        .ok (none, report (.str "abc") { warnings := [] })
      ∧ (report (.str "abc") { warnings := [] }).warnings.length =
          (({ warnings := [] } : Context)).warnings.length + 1
      ∧ Basic.handle .int true (.str "abc") { warnings := [] } =
        .ok (none, { warnings := [] })) :=
  ⟨by decide, basic_handle_coercion_failure .int "abc" { warnings := [] } (by decide)⟩

/-- C4: on any string raw value (expected malformed input included) and any
context, `Basic.handle` (any data type, any fallback flag) and
`AudioChannels.handle` never raise past their boundary: they return `.ok`
with an optional value and at most one new warning recorded. -/
theorem handlers_never_raise_on_strings (dt : DataType) (allow_fallback : Bool)
    (s : String) (ctx : Context) :
    (∃ r c, Basic.handle dt allow_fallback (.str s) ctx = .ok (r, c)
      ∧ c.warnings.length ≤ ctx.warnings.length + 1)
    ∧ (∃ r c, AudioChannels.handle (.str s) ctx = .ok (r, c)
      ∧ c.warnings.length ≤ ctx.warnings.length + 1) := by
  constructor
  · by_cases hi : isinstance (.str s) dt = true
    · exact ⟨some (.str s), ctx, by simp [Basic.handle, hi], by omega⟩
    · rw [Bool.not_eq_true] at hi
      rcases pyCoerce_str_classify dt s with ⟨v, hv⟩ | hv
      · exact ⟨some v, ctx, by simp [Basic.handle, hi, hv], by omega⟩
      · cases allow_fallback with
        | false =>
          exact ⟨none, report (.str s) ctx, by simp [Basic.handle, hi, hv],
            by simp [report]⟩
        | true => exact ⟨none, ctx, by simp [Basic.handle, hi, hv], by omega⟩
  · have hi : isinstance (.str s) .int = false := rfl
    by_cases hg : pyStrLower s ∈ AudioChannels.ignored
    · exact ⟨none, ctx, by simp [AudioChannels.handle, pyLower, hi, hg], by omega⟩
    · cases h : pyIntOfString (pyStrLower s) with
      | none =>
        exact ⟨none, report (.str s) ctx,
          by simp [AudioChannels.handle, pyLower, hi, hg, h], by simp [report]⟩
      | some n =>
        exact ⟨some (.int n), ctx,
          by simp [AudioChannels.handle, pyLower, hi, hg, h], by omega⟩

/-- C5: the classification loop of `MediaInfoProvider.describe` partitions
the raw track list by the `@type` discriminator into the General, Video,
Audio and Text groups (each the in-order filter of the list), and dropping
the tracks of any other or missing `@type` beforehand does not change the
result — they are ignored silently. -/
theorem classify_partitions_by_type (tracks : List RawTrack) :
    classify tracks =
      (tracks.filter (hasTrackType "General"), tracks.filter (hasTrackType "Video"),
       tracks.filter (hasTrackType "Audio"), tracks.filter (hasTrackType "Text"))
    ∧ classify (tracks.filter (fun t =>
        hasTrackType "General" t || hasTrackType "Video" t
          || hasTrackType "Audio" t || hasTrackType "Text" t)) = classify tracks := by
  refine ⟨classify_eq_filters tracks, ?_⟩
  rw [classify_eq_filters, classify_eq_filters]
  have known : ∀ (ty : String), (∀ t : RawTrack, hasTrackType ty t = true →
      (hasTrackType "General" t || hasTrackType "Video" t
        || hasTrackType "Audio" t || hasTrackType "Text" t) = true) →
      (tracks.filter (fun t =>
        hasTrackType "General" t || hasTrackType "Video" t
          || hasTrackType "Audio" t || hasTrackType "Text" t)).filter (hasTrackType ty) =
      tracks.filter (hasTrackType ty) := fun ty hty =>
    filter_filter_of_imp (hasTrackType ty) _ hty tracks
  rw [known "General" (fun t ht => by simp [ht]), known "Video" (fun t ht => by simp [ht]),
      known "Audio" (fun t ht => by simp [ht]), known "Text" (fun t ht => by simp [ht])]

/-- C6: a raw value that is already an instance of the declared target type
is returned unchanged, with no warning recorded — by `Basic.handle` for its
declared `data_type` and by `AudioChannels.handle` for `int`. -/
theorem handlers_identity_on_typed_input (dt : DataType) (allow_fallback : Bool)
    (v w : PyValue) (ctx : Context)
    (h₁ : isinstance v dt = true) (h₂ : isinstance w .int = true) :
    Basic.handle dt allow_fallback v ctx = .ok (some v, ctx)
    ∧ AudioChannels.handle w ctx = .ok (some w, ctx) := by
  constructor
  · simp [Basic.handle, h₁]
  · simp [AudioChannels.handle, h₂]

/-- C6 witness: identity at concrete already-typed inputs. -/
theorem handlers_identity_on_typed_input_witness :
    isinstance (.int 6) .int = true ∧ isinstance (.int 2) .int = true
    ∧ (Basic.handle .int false (.int 6) { warnings := [] } =
        .ok (some (.int 6), { warnings := [] })
      ∧ AudioChannels.handle (.int 2) { warnings := [] } =
        .ok (some (.int 2), { warnings := [] })) :=
  ⟨rfl, rfl,
    handlers_identity_on_typed_input .int false (.int 6) (.int 2) { warnings := [] } rfl rfl⟩

/-- C7: when no usable external probing tool was located (the executor slot
is Python `None`, or the `False` it is demoted to), `accepts` returns a
falsy value for every input path and extension list. -/
theorem accepts_false_without_executor (video_extensions : List String)
    (video_path : String) :
    (MediaInfoProvider.accepts video_extensions .pyNone video_path).1 = false
    ∧ (MediaInfoProvider.accepts video_extensions .pyFalse video_path).1 = false :=
  ⟨rfl, rfl⟩

/-- C8: every successful `describe` carries a provider block whose name is
"mediainfo" and whose version is exactly `MediaInfoProvider.version` for the
executor in use — the tool version metadata surfaced verbatim. -/
theorem describe_provider_block {α : Type}
    (describe_tracks : RawTrack → List RawTrack → List RawTrack → List RawTrack → Option α)
    (e : Executor) (pymediainfo_version : String) (tracks : List RawTrack)
    (r : DescribeResult α)
    (h : MediaInfoProvider.describe describe_tracks e pymediainfo_version tracks = .ok r) :
    r.provider =
      { name := "mediainfo",
        version := MediaInfoProvider.version (.found e) pymediainfo_version } := by
  unfold MediaInfoProvider.describe at h
  exact finishDescribe_provider e pymediainfo_version _ r h

/-- C8 witness: a concrete successful `describe` call and its provider
block. -/
theorem describe_provider_block_witness :
    MediaInfoProvider.describe (α := Nat) (fun _ _ _ _ => some 7)
        { location := "libmediainfo.so.0", version := [17, 10] } "4.2.2"
        [[("@type", PyValue.str "General")]] =
      .ok { body := 7,
            provider := { name := "mediainfo",
                          version := [("pymediainfo", "4.2.2"),
                                      ("libmediainfo.so.0", "v17.10")] } }
    ∧ ({ body := 7,
         provider := { name := "mediainfo",
                       version := [("pymediainfo", "4.2.2"),
                                   ("libmediainfo.so.0", "v17.10")] } } :
        DescribeResult Nat).provider =
      { name := "mediainfo",
        version := MediaInfoProvider.version
          (.found { location := "libmediainfo.so.0", version := [17, 10] }) "4.2.2" } :=
  ⟨by decide,
    describe_provider_block (fun _ _ _ _ => some 7)
      { location := "libmediainfo.so.0", version := [17, 10] } "4.2.2"
      [[("@type", PyValue.str "General")]] _ (by decide)⟩

/-- C9: the ignored-token matching of `AudioChannels.handle` is
case-insensitive: any string whose (ASCII) lowercasing is "object based"
yields no value and records no warning. -/
theorem audioChannels_ignored_case_insensitive (s : String) (ctx : Context)
    (h : pyStrLower s = "object based") :
    AudioChannels.handle (.str s) ctx = .ok (none, ctx) := by
  have hi : isinstance (.str s) .int = false := rfl
  simp [AudioChannels.handle, pyLower, hi, h, AudioChannels.ignored]

/-- C9 witness: mixed-case "Object Based" is silently ignored. -/
theorem audioChannels_ignored_case_insensitive_witness :
    pyStrLower "Object Based" = "object based"
    ∧ AudioChannels.handle (.str "Object Based") { warnings := [] } =
        .ok (none, { warnings := [] }) :=
  ⟨by decide, audioChannels_ignored_case_insensitive "Object Based" { warnings := [] }
    (by decide)⟩

/-- C10: when the probe output has more than one General track, `describe`
passes only the first one (in list order) to `_describe_tracks`; the later
General tracks do not appear anywhere in the computation — they are ignored
without a warning or error. -/
theorem describe_uses_first_general {α : Type}
    (describe_tracks : RawTrack → List RawTrack → List RawTrack → List RawTrack → Option α)
    (e : Executor) (pymediainfo_version : String) (tracks : List RawTrack)
    (g₀ : RawTrack) (rest : List RawTrack)
    (h : tracks.filter (hasTrackType "General") = g₀ :: rest) :
    MediaInfoProvider.describe describe_tracks e pymediainfo_version tracks =
      finishDescribe e pymediainfo_version
        (describe_tracks g₀ (tracks.filter (hasTrackType "Video"))
          (tracks.filter (hasTrackType "Audio")) (tracks.filter (hasTrackType "Text"))) := by
  have hne : tracks.isEmpty = false := by
    cases tracks with
    | nil => simp at h
    | cons t ts => rfl
  unfold MediaInfoProvider.describe
  rw [classify_eq_filters]
  simp only [hne, Bool.false_eq_true, if_false, h, List.headD_cons]

/-- C10 witness: with two General tracks, the first is the one described. -/
theorem describe_uses_first_general_witness :
    [[("@type", PyValue.str "General"), ("Title", PyValue.str "first")],
     [("@type", PyValue.str "General"), ("Title", PyValue.str "second")]].filter
        (hasTrackType "General") =
      [[("@type", PyValue.str "General"), ("Title", PyValue.str "first")],
       [("@type", PyValue.str "General"), ("Title", PyValue.str "second")]]
    ∧ MediaInfoProvider.describe (α := RawTrack) (fun g _ _ _ => some g)
        { location := "lib", version := [1] } "4.2.2"
        [[("@type", PyValue.str "General"), ("Title", PyValue.str "first")],
         [("@type", PyValue.str "General"), ("Title", PyValue.str "second")]] =
      finishDescribe { location := "lib", version := [1] } "4.2.2"
        ((fun (g : RawTrack) (_ _ _ : List RawTrack) => some g)
          [("@type", PyValue.str "General"), ("Title", PyValue.str "first")]
          ([[("@type", PyValue.str "General"), ("Title", PyValue.str "first")],
            [("@type", PyValue.str "General"), ("Title", PyValue.str "second")]].filter
            (hasTrackType "Video"))
          ([[("@type", PyValue.str "General"), ("Title", PyValue.str "first")],
            [("@type", PyValue.str "General"), ("Title", PyValue.str "second")]].filter
            (hasTrackType "Audio"))
          ([[("@type", PyValue.str "General"), ("Title", PyValue.str "first")],
            [("@type", PyValue.str "General"), ("Title", PyValue.str "second")]].filter
            (hasTrackType "Text"))) :=
  ⟨by decide,
    describe_uses_first_general (fun g _ _ _ => some g)
      { location := "lib", version := [1] } "4.2.2"
      [[("@type", PyValue.str "General"), ("Title", PyValue.str "first")],
       [("@type", PyValue.str "General"), ("Title", PyValue.str "second")]]
      [("@type", PyValue.str "General"), ("Title", PyValue.str "first")]
      [[("@type", PyValue.str "General"), ("Title", PyValue.str "second")]]
      (by decide)⟩

end Knowit
